import Mathlib

/-!
# Verification of the spatialDSSAT treatment registry and experiment serializer

This file is a shallow embedding of the `GSRun` class of
`spatialDSSAT/run.py` (the treatment registry and fixed-column experiment
serializer) together with proofs of its specified properties.

Modelling conventions:
* Python lists become Lean `List`s; in-place mutation becomes explicit state
  passing on a `GSRunState` record.
* Python `assert`/`raise` failures become `Except` errors.  Because Python
  mutates the object in place before an assertion can fire, the error value
  carries the state as mutated up to the point of failure.
* Python `datetime` values are modelled by a calendar-date record `PDate`
  (the code only ever uses dates at midnight).
* Python numbers appearing in planting/option dictionaries are modelled by
  `Int` and `Rat` (the numeric values the code manipulates — `-99`
  sentinels, day offsets, rates — are exact decimals, so rationals model
  them faithfully); the float-specific behaviour of `str.format` is modelled
  on this exact fragment.
* Filesystem and subprocess work (`RUN_PATH`, symlink staging, running the
  DSSAT binary) is outside the shallow embedding; the serializer functions
  below produce the strings the code writes.
-/

/-! ## Fixed-width formatting primitives (Python `str.format` fragment) -/

/-- Right-justify a string in a field of width `w` (Python `{:>w}` and the
default numeric alignment of `{:-w}`). -/
def rjust (w : Nat) (s : String) : String :=
  String.mk (List.replicate (w - s.length) ' ') ++ s

/-- Left-justify a string in a field of width `w` (Python `{:<w}`). -/
def ljust (w : Nat) (s : String) : String :=
  s ++ String.mk (List.replicate (w - s.length) ' ')

/-- Zero-pad a string on the left to width `w` (Python `{:0w}` for
non-negative numbers and `%y`/`%j` strftime padding). -/
def zpad (w : Nat) (s : String) : String :=
  String.mk (List.replicate (w - s.length) '0') ++ s

/-- Python `"{:-Nw}".format(n)` for an integer: right-justified decimal. -/
def fmtInt (w : Nat) (n : Int) : String := rjust w (toString n)

/-- Python `"{:0Nw}".format(n)` for a non-negative integer: zero-padded. -/
def fmtIntZ (w : Nat) (n : Int) : String := zpad w (toString n)

/-- Round `q * scale` to the nearest integer, ties to even (the rounding
used by Python's fixed-point float formatting; exact on the decimal-exact
values this code feeds it).  Works on the numerator/denominator directly so
that it evaluates by integer arithmetic. -/
def roundHalfEvenScaled (q : Rat) (scale : Nat) : Int :=
  let x : Int := q.num * (scale : Int)
  let d : Int := (q.den : Int)
  let f := Int.fdiv x d
  let r := x - f * d
  if 2 * r < d then f
  else if d < 2 * r then f + 1
  else if f % 2 = 0 then f else f + 1

/-- Python `"{:w.1f}".format(x)`: one decimal place, right-justified. -/
def fmtF1 (w : Nat) (q : Rat) : String :=
  let n := roundHalfEvenScaled q 10
  let a := n.natAbs
  rjust w ((if n < 0 then "-" else "") ++ toString (a / 10) ++ "." ++ toString (a % 10))

/-- Python `"{:w.0f}".format(x)`: zero decimal places, right-justified. -/
def fmtF0 (w : Nat) (q : Rat) : String :=
  rjust w (toString (roundHalfEvenScaled q 1))

/-! ## Dates (`datetime.datetime` as used by the code) -/

/-- A calendar date; `datetime` values in `run.py` are only ever dates. -/
structure PDate where
  year : Nat
  month : Nat
  day : Nat
deriving DecidableEq, Repr

/-- Gregorian leap-year test. -/
def isLeap (y : Nat) : Bool := (y % 4 == 0 && y % 100 != 0) || y % 400 == 0

/-- Month lengths for a (non-)leap year. -/
def monthLengths (leap : Bool) : List Nat :=
  [31, if leap then 29 else 28, 31, 30, 31, 30, 31, 31, 30, 31, 30, 31]

/-- Day of year (1-based), as used by strftime's `%j`. -/
def dayOfYear (d : PDate) : Nat :=
  ((monthLengths (isLeap d.year)).take (d.month - 1)).sum + d.day

/-- Python `d.strftime("%y%j")`: two-digit year then zero-padded day of year. -/
def fmtYJ (d : PDate) : String :=
  zpad 2 (toString (d.year % 100)) ++ zpad 3 (toString (dayOfYear d))

/-- Lexicographic date comparison (`datetime.__lt__`). -/
def pdateLt (a b : PDate) : Bool :=
  a.year < b.year ||
    (a.year == b.year &&
      (a.month < b.month || (a.month == b.month && a.day < b.day)))

/-- Python `min(a, b)` on dates: returns `b` exactly when `b < a`. -/
def minDate (a b : PDate) : PDate := if pdateLt b a then b else a

/-! ## Values stored in planting / simulation-control dictionaries -/

/-- A Python scalar as stored in the planting and simulation-control dicts:
a date, an integer, a float (exact decimal, as `Rat`), or a string. -/
inductive PV where
  | date (d : PDate)
  | int (n : Int)
  | rat (q : Rat)
  | str (s : String)
deriving DecidableEq, Repr

/-- Python `==` on such scalars.  Distinct types compare unequal except that
`int` and `float` compare numerically (`-99 == -99.0` is `True`). -/
def pvBeq : PV → PV → Bool
  | .date a, .date b => a == b
  | .int a, .int b => a == b
  | .rat a, .rat b => a == b
  | .str a, .str b => a == b
  | .int a, .rat b => (a : Rat) == b
  | .rat a, .int b => a == (b : Rat)
  | _, _ => false

/-- A Python dict with string keys, as an insertion-ordered association
list (Python dicts preserve insertion order; well-formed dicts have no
duplicate keys). -/
abbrev PDict := List (String × PV)

/-- Python `==` on dicts: same keys with equal values, irrespective of the
insertion order on either side. -/
def pdictBeq (a b : PDict) : Bool :=
  a.all (fun kv => match List.lookup kv.1 b with
      | some v => pvBeq kv.2 v
      | none => false) &&
  b.all (fun kv => match List.lookup kv.1 a with
      | some v => pvBeq kv.2 v
      | none => false)

/-- Assignment `m[k] = v` to an existing key of a Python dict: the value is
replaced in place while the key keeps its position. -/
def dictSet (m : PDict) (k : String) (v : PV) : PDict :=
  m.map (fun kv => if kv.1 = k then (kv.1, v) else kv)

/-- A `planting` argument of `add_treatment`: either a bare date or a dict of
planting parameters (which must carry a `"PDATE"` entry). -/
inductive PlantingVal where
  | date (d : PDate)
  | dict (m : PDict)
deriving DecidableEq, Repr

/-- Python `==` on planting values (`datetime == dict` is `False`; dicts
compare order-insensitively). -/
def plantingBeq : PlantingVal → PlantingVal → Bool
  | .date a, .date b => a == b
  | .dict a, .dict b => pdictBeq a b
  | _, _ => false

/-- A nitrogen schedule: a list of (days-after-planting, rate) pairs. -/
abbrev NSched := List (Int × Rat)

/-- Python `==` on nitrogen schedules (elementwise tuple equality). -/
def nschedBeq (a b : NSched) : Bool := a == b

/-- Python `==` on strings. -/
def strBeq (a b : String) : Bool := a == b

/-- Python `==` on (weather-index, soil-index) field pairs. -/
def pairBeq (a b : Nat × Nat) : Bool := a == b

/-! ## Dimension interning

Every dimension table in `add_treatment` is updated by the same idiom:

    if value not in table: table.append(value)
    index = table.index(value) + 1

`intern` is that idiom: membership and `index` both use the dimension's
Python equality `eqb`. -/

/-- Add `v` to the table `xs` unless an `eqb`-equal value is present, and
return the updated table together with the 1-based index of the first
`eqb`-match in it. -/
def intern (eqb : α → α → Bool) (xs : List α) (v : α) : List α × Nat :=
  let xs' := if xs.any (fun x => eqb v x) then xs else xs ++ [v]
  (xs', xs'.findIdx (fun x => eqb v x) + 1)

/-! ## The registry state (`GSRun.__init__`, `add_treatment`, `clear`) -/

/-- The mutable state of a `GSRun` object.  The temporary run directory and
result caches bound to the filesystem are outside the embedding. -/
structure GSRunState where
  crop : String
  weather : List String
  soil : List String
  soil_profile : List String
  field : List (Nat × Nat)
  planting : List PlantingVal
  nitrogen : List NSched
  cultivar : List String
  treatments : List (Nat × Nat × Nat × Nat)
  start_date : PDate
  sol_str : String
  gsx_str : String
  batch_str : String
deriving DecidableEq, Repr

namespace GSRun

/-- `GSRun.__init__` on a fresh object: the crop is recorded and every
dimension table, the treatment list, the start date and the serialized
buffers take their initial values.  (The constructor also title-cases and
validates the crop name against the external `DSSATTools.CROP_CODES` table
and allocates a temporary directory; the external table and the filesystem
are outside the embedding, so crop names are taken as already canonical.) -/
def init (crop_name : String) : GSRunState where
  crop := crop_name
  weather := []
  soil := []
  soil_profile := []
  field := []
  planting := []
  nitrogen := []
  cultivar := []
  treatments := []
  start_date := ⟨9999, 9, 9⟩
  sol_str := ""
  gsx_str := ""
  batch_str := ""

/-- `GSRun.__init__` re-run on an existing object (what `clear` does): the
`hasattr(self, "treatments")` guard skips the crop/run-path block, so the
crop is kept and everything else is reset. -/
def initOn (s : GSRunState) : GSRunState :=
  { init s.crop with crop := s.crop }

/-- `GSRun.clear`: delegates to `__init__` with the current crop name. -/
def clear (s : GSRunState) : GSRunState := initOn s

/-- The errors `add_treatment` can raise.  `capacity` and `missingSoil` are
the two `assert`s on the treatment count and the soil arguments;
`missingPDate` is the `assert "PDATE" in planting`; `pdateNotDate` is the
`TypeError` from `min(self.start_date, planting["PDATE"])` when `PDATE` is
not a date. -/
inductive AddError where
  | capacity
  | missingSoil
  | missingPDate
  | pdateNotDate
deriving DecidableEq, Repr

/-- Python truthiness of the `soil_profile` keyword (`kwargs.get` yields
`False` when absent; an empty string is falsy). -/
def spTruthy : Option String → Bool
  | some sp => sp != ""
  | none => false

/-- The soil branch of `add_treatment`: a truthy `soil_profile` is interned
into the soil-profile table, otherwise `soil` must be non-`None` and is
interned into the soil table.  Returns the updated state and `soil_n`. -/
def soilStep (s : GSRunState) (soil : Option String)
    (soil_profile : Option String) :
    Except (AddError × GSRunState) (GSRunState × Nat) :=
  if spTruthy soil_profile then
    let sp := soil_profile.getD ""
    let r := intern strBeq s.soil_profile sp
    .ok ({ s with soil_profile := r.1 }, r.2)
  else
    match soil with
    | none => .error (.missingSoil, s)
    | some so =>
      let r := intern strBeq s.soil so
      .ok ({ s with soil := r.1 }, r.2)

/-- `GSRun.add_treatment`.  Mirrors the statement order of the source: the
capacity assert, weather interning, the soil branch, field / nitrogen /
cultivar / planting interning, the start-date update, and finally the append
of the four-index treatment tuple.  An error carries the state as mutated up
to the failing statement. -/
def addTreatment (s : GSRunState) (weather : String) (nitrogen : NSched)
    (planting : PlantingVal) (cultivar : String)
    (soil : Option String := none) (soil_profile : Option String := none) :
    Except (AddError × GSRunState) GSRunState :=
  if s.treatments.length < 99 then
    let wr := intern strBeq s.weather weather
    let s1 := { s with weather := wr.1 }
    match soilStep s1 soil soil_profile with
    | .error e => .error e
    | .ok (s2, soil_n) =>
      let fr := intern pairBeq s2.field (wr.2, soil_n)
      let s3 := { s2 with field := fr.1 }
      let nr := intern nschedBeq s3.nitrogen nitrogen
      let s4 := { s3 with nitrogen := nr.1 }
      let cr := intern strBeq s4.cultivar cultivar
      let s5 := { s4 with cultivar := cr.1 }
      let pr := intern plantingBeq s5.planting planting
      let s6 := { s5 with planting := pr.1 }
      match planting with
      | .date d =>
        let s7 := { s6 with start_date := minDate s6.start_date d }
        .ok { s7 with treatments := s7.treatments ++ [(cr.2, fr.2, pr.2, nr.2)] }
      | .dict m =>
        match List.lookup "PDATE" m with
        | none => .error (.missingPDate, s6)
        | some (.date d) =>
          let s7 := { s6 with start_date := minDate s6.start_date d }
          .ok { s7 with treatments := s7.treatments ++ [(cr.2, fr.2, pr.2, nr.2)] }
        | some _ => .error (.pdateNotDate, s6)
  else .error (.capacity, s)

end GSRun

/-! ## Weather-station identifiers (`WTH_IDS`) -/

/-- `string.ascii_uppercase`. -/
def ascii_uppercase : List Char := "ABCDEFGHIJKLMNOPQRSTUVWXYZ".data

/-- `WTH_IDS`: the two-letter identifier sequence
`["".join(i) for i in product(ascii_uppercase, ascii_uppercase)]`,
i.e. `AA, AB, ..., AZ, BA, ..., ZZ` with the second letter varying
fastest. -/
def WTH_IDS : List String :=
  ascii_uppercase.flatMap (fun a => ascii_uppercase.map (fun b => String.mk [a, b]))

/-- `WTH_IDS[weather_n - 1]`, the identifier the fields section and the
weather-file staging assign to the weather-dimension index `weather_n`. -/
def wthId (weather_n : Nat) : String := WTH_IDS.getD (weather_n - 1) ""

/-! ## Section serializers -/

/-- Python `s[-8:-4]` (clamping slice semantics). -/
def pySliceM8M4 (s : String) : String :=
  let l := s.length
  String.mk ((s.data.drop (l - 8)).take ((l - 4) - (l - 8)))

/-- One data line of the `*FIELDS` section (`GSRun._field_build` loop body):
`"{0:-2} SEFL00{0:02} SE{1}{2}   -99 ... IB000000{3:-02} -99"` formatted with
the line number, `WTH_IDS[weather_n-1]`, the weather-path suffix and
`soil_n`. -/
def fieldLine (weatherTab : List String) (n weather_n soil_n : Nat) : String :=
  let weather_sufix := pySliceM8M4 (weatherTab.getD (weather_n - 1) "")
  fmtInt 2 n ++ " SEFL00" ++ fmtIntZ 2 n ++ " SE" ++ wthId weather_n ++
    weather_sufix ++
    "   -99     0 DR000     0     0 00000 -99    200  IB000000" ++
    fmtIntZ 2 soil_n ++ " -99\n"

/-- The `*FIELDS` section appended by `GSRun._field_build`. -/
def field_build (weatherTab : List String) (fieldTab : List (Nat × Nat)) : String :=
  "*FIELDS\n" ++
  "@L ID_FIELD WSTA....  FLSA  FLOB  FLDT  FLDD  FLDS  FLST SLTX  SLDP  ID_SOIL    FLNAME\n" ++
  String.join ((fieldTab.enumFrom 1).map (fun p => fieldLine weatherTab p.1 p.2.1 p.2.2)) ++
  "\n"

/-- One data line of the `*TREATMENTS` section (`GSRun._treatment_build` loop
body): treatment number, name, and the cultivar / field / planting /
nitrogen indices of the treatment tuple, each right-justified in two
characters. -/
def treatmentLine (n : Nat) (t : Nat × Nat × Nat × Nat) : String :=
  fmtInt 2 n ++ " 1 0 0 SAMPLE " ++ ljust 18 (toString n) ++ " " ++
    fmtInt 2 t.1 ++ " " ++ fmtInt 2 t.2.1 ++ "  0 " ++ fmtInt 2 0 ++ " " ++
    fmtInt 2 t.2.2.1 ++ "  0 " ++ fmtInt 2 t.2.2.2 ++ "  0  0  0  0  0  1\n"

/-- The data lines of the `*TREATMENTS` section, one per treatment, numbered
from 1 in list order. -/
def treatmentDataLines (ts : List (Nat × Nat × Nat × Nat)) : List String :=
  (ts.enumFrom 1).map (fun p => treatmentLine p.1 p.2)

/-- The `*TREATMENTS` section appended to `gsx_str` by
`GSRun._treatment_build`. -/
def treatment_build_gsx (ts : List (Nat × Nat × Nat × Nat)) : String :=
  "*TREATMENTS                        -------------FACTOR LEVELS------------\n" ++
  "@N R O C TNAME.................... CU FL SA IC MP MI MF MR MC MT ME MH SM\n" ++
  String.join (treatmentDataLines ts) ++ "\n"

/-- One line of the `*FERTILIZERS` section (`GSRun._fertilizer_build` inner
loop body): the schedule's 1-based index, the application offset
left-justified in five characters, and the rate as `{:5.1f}`. -/
def fertLine (k : Nat) (dap : Int) (rate : Rat) : String :=
  fmtInt 2 k ++ " " ++ ljust 5 (toString dap) ++ " FE005   -99     5 " ++
    fmtF1 5 rate ++ "   -99   -99   -99   -99   -99 -99\n"

/-- All data lines of the `*FERTILIZERS` section: for each schedule (numbered
from 1 in table order) one line per (offset, rate) application. -/
def fertilizerLines (nitro : List NSched) : List String :=
  (nitro.enumFrom 1).flatMap (fun p => p.2.map (fun a => fertLine p.1 a.1 a.2))

/-- The `*FERTILIZERS (INORGANIC)` section appended by
`GSRun._fertilizer_build`. -/
def fertilizer_build (nitro : List NSched) : String :=
  "*FERTILIZERS (INORGANIC)\n" ++
  "@F FDATE  FMCD  FACD  FDEP  FAMN  FAMP  FAMK  FAMC  FAMO  FOCD FERNAME\n" ++
  String.join (fertilizerLines nitro) ++ "\n"

/-! ## Simulation controls (`GSRun._options_build`) -/

/-- `DEFAULT_SIMULATION_OPTIONS`, in its (insertion-ordered) key order. -/
def DEFAULT_SIMULATION_OPTIONS : List (String × PV) := [
  ("WATER", .str "Y"), ("NITRO", .str "Y"), ("SYMBI", .str "N"),
  ("PHOSP", .str "N"), ("POTAS", .str "N"), ("CO2", .str "D"),
  ("LIGHT", .str "E"), ("EVAPO", .str "R"), ("INFIL", .str "S"),
  ("PHOTO", .str "C"), ("MESOM", .str "P"), ("MESEV", .str "R"),
  ("MESOL", .str "2"), ("IRRIG", .str "N"), ("IMDEP", .int 30),
  ("ITHRL", .int 50), ("ITHRU", .int 100), ("PLANT", .str "R"),
  ("PFRST", .str "00001"), ("PLAST", .str "00365"), ("PH2OL", .int 40),
  ("PH2OU", .int 100), ("PH2OD", .int 30), ("PSTMX", .int 40),
  ("PSTMN", .int 10)]

/-- The recognized simulation-control keys. -/
def simKeys : List String := DEFAULT_SIMULATION_OPTIONS.map Prod.fst

/-- A user-supplied simulation-controls override mapping. -/
abbrev SimCtrl := List (String × PV)

/-- `repr` of a Python float, modelled on the exact decimal fragment: only
integral floats are rendered (no claim exercises non-integral floats in a
plain format slot). -/
def fmtRatPlain (q : Rat) : Except String String :=
  if q.den == 1 then .ok (toString q.num ++ ".0")
  else .error "float repr beyond modelled fragment"

/-- Python `"{}".format(v)` for an option value. -/
def pvPlain : PV → Except String String
  | .str s => .ok s
  | .int n => .ok (toString n)
  | .rat q => fmtRatPlain q
  | .date _ => .error "date format beyond modelled fragment"

/-- Python `"{:>5d}".format(v)`: requires an integer (a string or float
raises `ValueError`). -/
def pvD5 : PV → Except String String
  | .int n => .ok (rjust 5 (toString n))
  | _ => .error "Unknown format code d"

/-- The `options` list of `_options_build`:
`[sim_controls.get(key, DEFAULT_SIMULATION_OPTIONS[key]) for key in
DEFAULT_SIMULATION_OPTIONS]`. -/
def mergedOptions (o : SimCtrl) : List PV :=
  DEFAULT_SIMULATION_OPTIONS.map (fun kv => (List.lookup kv.1 o).getD kv.2)

/-- The `*SIMULATION CONTROLS` section text as a function of the start date
and the merged `options` list (position `i` of `opts` is format argument
`{i}` of the source's template). -/
def optionsBuildFrom (start_date : PDate) (opts : List PV) :
    Except String String := do
  let g := fun i => opts.getD i (PV.int 0)
  let o0 ← pvPlain (g 0)
  let o1 ← pvPlain (g 1)
  let o2 ← pvPlain (g 2)
  let o3 ← pvPlain (g 3)
  let o4 ← pvPlain (g 4)
  let o5 ← pvPlain (g 5)
  let o6 ← pvPlain (g 6)
  let o7 ← pvPlain (g 7)
  let o8 ← pvPlain (g 8)
  let o9 ← pvPlain (g 9)
  let o10 ← pvPlain (g 10)
  let o11 ← pvPlain (g 11)
  let o12 ← pvPlain (g 12)
  let o13 ← pvPlain (g 13)
  let o14 ← pvD5 (g 14)
  let o15 ← pvD5 (g 15)
  let o16 ← pvD5 (g 16)
  let o17 ← pvPlain (g 17)
  let o18 ← pvPlain (g 18)
  let o19 ← pvPlain (g 19)
  let o20 ← pvD5 (g 20)
  let o21 ← pvD5 (g 21)
  let o22 ← pvD5 (g 22)
  let o23 ← pvD5 (g 23)
  let o24 ← pvD5 (g 24)
  .ok ("*SIMULATION CONTROLS\n" ++
    "@N GENERAL     NYERS NREPS START SDATE RSEED SNAME.................... SMODEL\n" ++
    " 1 GE              1     1     S " ++ ljust 5 (fmtYJ start_date) ++
    "  2150 N SPATIAL ANALYSES TEST\n" ++
    "@N OPTIONS     WATER NITRO SYMBI PHOSP POTAS DISES  CHEM  TILL   CO2\n" ++
    " 1 OP              " ++ o0 ++ "     " ++ o1 ++ "     " ++ o2 ++ "     " ++
    o3 ++ "     " ++ o4 ++ "     N     N     N     " ++ o5 ++ "\n" ++
    "@N METHODS     WTHER INCON LIGHT EVAPO INFIL PHOTO HYDRO MESOM MESEV MESOL\n" ++
    " 1 ME              M     M     " ++ o6 ++ "     " ++ o7 ++ "     " ++ o8 ++
    "     " ++ o9 ++ "     R     " ++ o10 ++ "     " ++ o11 ++ "     " ++ o12 ++ "\n" ++
    "@N MANAGEMENT  PLANT IRRIG FERTI RESID HARVS\n" ++
    " 1 MA              " ++ o17 ++ "     " ++ o13 ++ "     D     N     M\n" ++
    "@N OUTPUTS     FNAME OVVEW SUMRY FROPT GROUT CAOUT WAOUT NIOUT MIOUT DIOUT VBOSE CHOUT OPOUT FMOPT\n" ++
    " 1 OU              N     Y     Y     1     Y     N     N     N     N     N     Y     N     N     A\n\n" ++
    "@  AUTOMATIC MANAGEMENT\n" ++
    "@N PLANTING    PFRST PLAST PH2OL PH2OU PH2OD PSTMX PSTMN\n" ++
    " 1 PL          " ++ o18 ++ " " ++ o19 ++ " " ++ o20 ++ " " ++ o21 ++ " " ++
    o22 ++ " " ++ o23 ++ " " ++ o24 ++ "\n" ++
    "@N IRRIGATION  IMDEP ITHRL ITHRU IROFF IMETH IRAMT IREFF\n" ++
    " 1 IR          " ++ o14 ++ " " ++ o15 ++ " " ++ o16 ++ " GS000 IR003    10     1\n" ++
    "@N NITROGEN    NMDEP NMTHR NAMNT NCODE NAOFF\n" ++
    " 1 NI             30    50    25 FE001 GS000\n" ++
    "@N RESIDUES    RIPCN RTIME RIDEP\n" ++
    " 1 RE            100     1    20\n" ++
    "@N HARVEST     HFRST HLAST HPCNP HPCNR\n" ++
    " 1 HA              0 81365   100     0\n")

/-- `GSRun._options_build`: the section built from the key-by-key merge of
the override mapping over `DEFAULT_SIMULATION_OPTIONS`. -/
def options_build (start_date : PDate) (sim_controls : SimCtrl) :
    Except String String :=
  optionsBuildFrom start_date (mergedOptions sim_controls)

/-! ## Planting details (`GSRun._planting_build`) -/

/-- `DEFAULT_PLANTING_OPTIONS`, in its (insertion-ordered) key order. -/
def DEFAULT_PLANTING_OPTIONS : List (String × PV) := [
  ("PDATE", .int (-99)), ("EDATE", .int (-99)), ("PPOP", .rat 4),
  ("PPOE", .rat 4), ("PLME", .str "S"), ("PLDS", .str "R"),
  ("PLRS", .int 90), ("PLRD", .int 0), ("PLDP", .int 4),
  ("PLWT", .int (-99)), ("PAGE", .int (-99)), ("PENV", .int (-99)),
  ("PLPH", .int (-99)), ("SPRL", .int (-99))]

/-- The failures `_planting_build` can raise: `.strftime` on a non-date
(`AttributeError`), a missing `"PDATE"` key (`KeyError`), the
`assert isinstance(planting["EDATE"], (date, datetime))`, and a value of the
wrong type in a fixed-point format slot. -/
inductive BuildError where
  | attrError
  | keyError
  | assertError
  | formatError (msg : String)
deriving DecidableEq, Repr

/-- `v.strftime("%y%j")`: only dates have `strftime`. -/
def pvStrftimeYJ : PV → Except BuildError String
  | .date d => .ok (fmtYJ d)
  | _ => .error .attrError

/-- Python `v != -99` (numeric equality across int/float; any non-number is
unequal to `-99`). -/
def pvNe99 (v : PV) : Bool := !(pvBeq v (.int (-99)))

/-- The in-place date-to-string conversion `_planting_build` performs on a
planting dict before formatting it: `PDATE` (always) and `EDATE` (when
present and `!= -99`, asserting it is a date) are replaced by their
`"%y%j"` strings. -/
def processPlantingDict (m : PDict) : Except BuildError PDict :=
  match List.lookup "PDATE" m with
  | none => .error .keyError
  | some v =>
    match pvStrftimeYJ v with
    | .error e => .error e
    | .ok sYJ =>
      let m1 := dictSet m "PDATE" (.str sYJ)
      match List.lookup "EDATE" m1 with
      | some ev =>
        if pvNe99 ev then
          match ev with
          | .date ed => .ok (dictSet m1 "EDATE" (.str (fmtYJ ed)))
          | _ => .error .assertError
        else .ok m1
      | none => .ok m1

/-- Python `"{:>5}".format(v)`. -/
def pvG5 : PV → Except BuildError String
  | .str s => .ok (rjust 5 s)
  | .int n => .ok (rjust 5 (toString n))
  | .rat q =>
    match fmtRatPlain q with
    | .ok s => .ok (rjust 5 s)
    | .error e => .error (.formatError e)
  | .date _ => .error (.formatError "date format beyond modelled fragment")

/-- Python `"{:>5.1f}".format(v)`: needs a number. -/
def pvF1 : PV → Except BuildError String
  | .int n => .ok (fmtF1 5 (n : Rat))
  | .rat q => .ok (fmtF1 5 q)
  | _ => .error (.formatError "Unknown format code f")

/-- Python `"{:>5.0f}".format(v)`: needs a number. -/
def pvF0 : PV → Except BuildError String
  | .int n => .ok (fmtF0 5 (n : Rat))
  | .rat q => .ok (fmtF0 5 q)
  | _ => .error (.formatError "Unknown format code f")

/-- One data line of the `*PLANTING DETAILS` section: the entry number
followed by `planting.get(key, DEFAULT_PLANTING_OPTIONS[key])` for each
default key, in the source template's formats. -/
def plantingLine (n : Nat) (m : PDict) : Except BuildError String := do
  let gv := fun k =>
    (List.lookup k m).getD ((List.lookup k DEFAULT_PLANTING_OPTIONS).getD (.int 0))
  let vPDATE ← pvG5 (gv "PDATE")
  let vEDATE ← pvG5 (gv "EDATE")
  let vPPOP ← pvF1 (gv "PPOP")
  let vPPOE ← pvF1 (gv "PPOE")
  let vPLME ← pvG5 (gv "PLME")
  let vPLDS ← pvG5 (gv "PLDS")
  let vPLRS ← pvF0 (gv "PLRS")
  let vPLRD ← pvF0 (gv "PLRD")
  let vPLDP ← pvF0 (gv "PLDP")
  let vPLWT ← pvF0 (gv "PLWT")
  let vPAGE ← pvF0 (gv "PAGE")
  let vPENV ← pvF0 (gv "PENV")
  let vPLPH ← pvF0 (gv "PLPH")
  let vSPRL ← pvF0 (gv "SPRL")
  .ok (fmtInt 2 n ++ " " ++ vPDATE ++ " " ++ vEDATE ++ " " ++ vPPOP ++ " " ++
    vPPOE ++ " " ++ vPLME ++ " " ++ vPLDS ++ " " ++ vPLRS ++ " " ++ vPLRD ++
    " " ++ vPLDP ++ " " ++ vPLWT ++ " " ++ vPAGE ++ " " ++ vPENV ++ " " ++
    vPLPH ++ " " ++ vSPRL ++ "                        -99\n")

/-- Processing of one planting-table entry by `_planting_build`.  A bare
date is wrapped in a fresh local dict (`planting = {"PDATE": planting}`), so
the stored entry is untouched; a dict entry is the stored object itself, so
the stored entry becomes the converted dict. -/
def plantingEntryStep (n : Nat) (p : PlantingVal) :
    Except BuildError (PlantingVal × String) :=
  match p with
  | .date d =>
    match processPlantingDict [("PDATE", .date d)] with
    | .error e => .error e
    | .ok m' =>
      match plantingLine n m' with
      | .error e => .error e
      | .ok line => .ok (.date d, line)
  | .dict m =>
    match processPlantingDict m with
    | .error e => .error e
    | .ok m' =>
      match plantingLine n m' with
      | .error e => .error e
      | .ok line => .ok (.dict m', line)

/-- The `_planting_build` loop over the planting table, numbering entries
from `n`: yields the table as left after the loop and the concatenated data
lines. -/
def plantingBuildGo : Nat → List PlantingVal →
    Except BuildError (List PlantingVal × String)
  | _, [] => .ok ([], "")
  | n, p :: ps =>
    match plantingEntryStep n p with
    | .error e => .error e
    | .ok r =>
      match plantingBuildGo (n + 1) ps with
      | .error e => .error e
      | .ok rest => .ok (r.1 :: rest.1, r.2 ++ rest.2)

/-- `GSRun._planting_build`: the `*PLANTING DETAILS` section, together with
the planting table as it stands after the build (its dict-shaped entries
have been converted in place). -/
def planting_build (tbl : List PlantingVal) :
    Except BuildError (List PlantingVal × String) :=
  match plantingBuildGo 1 tbl with
  | .error e => .error e
  | .ok (tbl', body) =>
    .ok (tbl',
      "*PLANTING DETAILS\n" ++
      "@P PDATE EDATE  PPOP  PPOE  PLME  PLDS  PLRS  PLRD  PLDP  PLWT  PAGE  PENV  PLPH  SPRL                        PLNAME\n" ++
      body ++ "\n")

/-! ## Lemmas: interning -/

theorem findIdx_append_singleton {α} {p : α → Bool} {xs : List α} {v : α}
    (h : xs.any p = false) (hv : p v = true) :
    (xs ++ [v]).findIdx p = xs.length := by
  induction xs with
  | nil => simp [List.findIdx_cons, hv]
  | cons a t ih =>
    simp only [List.any_cons, Bool.or_eq_false_iff] at h
    simp [List.findIdx_cons, h.1, ih h.2]

theorem intern_of_mem {α} (eqb : α → α → Bool) (xs : List α) (v : α)
    (h : xs.any (fun x => eqb v x) = true) :
    intern eqb xs v = (xs, xs.findIdx (fun x => eqb v x) + 1) := by
  simp [intern, h]

theorem intern_of_not_mem {α} (eqb : α → α → Bool) (xs : List α) (v : α)
    (h : xs.any (fun x => eqb v x) = false) (hrefl : eqb v v = true) :
    intern eqb xs v = (xs ++ [v], xs.length + 1) := by
  simp [intern, h, findIdx_append_singleton h hrefl]

theorem intern_readd {α} (eqb : α → α → Bool) (xs : List α) (v : α)
    (hrefl : eqb v v = true) :
    intern eqb (intern eqb xs v).1 v = ((intern eqb xs v).1, (intern eqb xs v).2) := by
  by_cases h : xs.any (fun x => eqb v x) = true
  · simp [intern, h]
  · have h' : xs.any (fun x => eqb v x) = false := by
      simpa using h
    have hmem : (xs ++ [v]).any (fun x => eqb v x) = true := by
      simp [hrefl]
    simp [intern, h', hmem]

/-! ## Lemmas: Python dict equality -/

theorem pvBeq_refl (v : PV) : pvBeq v v = true := by
  cases v <;> simp [pvBeq]

theorem lookup_self_of_nodup {m : PDict} (hn : (m.map Prod.fst).Nodup)
    {kv : String × PV} (hmem : kv ∈ m) : List.lookup kv.1 m = some kv.2 := by
  induction m with
  | nil => cases hmem
  | cons a t ih =>
    simp only [List.map_cons, List.nodup_cons] at hn
    rcases List.mem_cons.mp hmem with h | h
    · subst h
      simp [List.lookup]
    · have hne : (kv.1 == a.1) = false := by
        refine beq_eq_false_iff_ne.mpr (fun hk => hn.1 ?_)
        exact hk ▸ List.mem_map_of_mem Prod.fst h
      simp [List.lookup, hne, ih hn.2 h]

theorem lookup_perm {m1 m2 : PDict} (hp : List.Perm m1 m2)
    (hn : (m1.map Prod.fst).Nodup) (k : String) :
    List.lookup k m1 = List.lookup k m2 := by
  induction hp with
  | nil => rfl
  | cons a hperm ih =>
    simp only [List.map_cons, List.nodup_cons] at hn
    obtain ⟨k', v⟩ := a
    by_cases hk : k = k'
    · simp [List.lookup, hk]
    · have hb : (k == k') = false := beq_eq_false_iff_ne.mpr hk
      simp [List.lookup, hb, ih hn.2]
  | swap a b t =>
    obtain ⟨ka, va⟩ := a
    obtain ⟨kb, vb⟩ := b
    simp only [List.map_cons, List.nodup_cons, List.mem_cons] at hn
    have hne : (kb == ka) = false :=
      beq_eq_false_iff_ne.mpr (fun h => hn.1 (Or.inl h))
    by_cases h1 : k = kb
    · subst h1
      simp [List.lookup, hne]
    · have hb1 : (k == kb) = false := beq_eq_false_iff_ne.mpr h1
      by_cases h2 : k = ka
      · subst h2
        simp [List.lookup, hb1]
      · have hb2 : (k == ka) = false := beq_eq_false_iff_ne.mpr h2
        simp [List.lookup, hb1, hb2]
  | trans hp1 hp2 ih1 ih2 =>
    have hn2 := (hp1.map Prod.fst).nodup_iff.mp hn
    exact (ih1 hn).trans (ih2 hn2)

theorem pdictBeq_of_perm {m1 m2 : PDict} (hp : List.Perm m1 m2)
    (hn : (m1.map Prod.fst).Nodup) : pdictBeq m1 m2 = true := by
  have hn2 : (m2.map Prod.fst).Nodup := (hp.map Prod.fst).nodup_iff.mp hn
  unfold pdictBeq
  rw [Bool.and_eq_true]
  constructor
  · rw [List.all_eq_true]
    intro kv hkv
    have h1 : List.lookup kv.1 m2 = some kv.2 := by
      rw [← lookup_perm hp hn]
      exact lookup_self_of_nodup hn hkv
    simp [h1, pvBeq_refl]
  · rw [List.all_eq_true]
    intro kv hkv
    have h1 : List.lookup kv.1 m1 = some kv.2 := by
      rw [lookup_perm hp hn]
      exact lookup_self_of_nodup hn2 hkv
    simp [h1, pvBeq_refl]

/-! ## Lemmas: `add_treatment` paths -/

/-- The planting date `add_treatment` extracts for the start-date update:
the value itself for a bare date, the `"PDATE"` entry (when it is a date)
for a dict. -/
def plantingPDate : PlantingVal → Option PDate
  | .date d => some d
  | .dict m =>
    match List.lookup "PDATE" m with
    | some (.date d) => some d
    | _ => none

theorem addTreatment_capacity {s : GSRunState} (h : ¬ s.treatments.length < 99)
    (w : String) (nn : NSched) (p : PlantingVal) (c : String)
    (so sp : Option String) :
    GSRun.addTreatment s w nn p c so sp = .error (.capacity, s) := by
  simp [GSRun.addTreatment, h]

theorem addTreatment_ok_char {s : GSRunState} {w : String} {nn : NSched}
    {p : PlantingVal} {c : String} {so sp : Option String}
    {s2 : GSRunState} {soil_n : Nat} {d : PDate}
    (h99 : s.treatments.length < 99)
    (hsoil : GSRun.soilStep { s with weather := (intern strBeq s.weather w).1 }
      so sp = .ok (s2, soil_n))
    (hd : plantingPDate p = some d) :
    GSRun.addTreatment s w nn p c so sp = .ok { s2 with
      field := (intern pairBeq s2.field ((intern strBeq s.weather w).2, soil_n)).1,
      nitrogen := (intern nschedBeq s2.nitrogen nn).1,
      cultivar := (intern strBeq s2.cultivar c).1,
      planting := (intern plantingBeq s2.planting p).1,
      start_date := minDate s2.start_date d,
      treatments := s2.treatments ++ [((intern strBeq s2.cultivar c).2,
        (intern pairBeq s2.field ((intern strBeq s.weather w).2, soil_n)).2,
        (intern plantingBeq s2.planting p).2,
        (intern nschedBeq s2.nitrogen nn).2)] } := by
  cases p with
  | date d' =>
    simp only [plantingPDate, Option.some.injEq] at hd
    subst hd
    simp [GSRun.addTreatment, h99, hsoil]
  | dict m =>
    simp only [plantingPDate] at hd
    cases hl : List.lookup "PDATE" m with
    | none => rw [hl] at hd; cases hd
    | some v =>
      cases v with
      | date d' =>
        rw [hl] at hd
        simp only [Option.some.injEq] at hd
        subst hd
        simp [GSRun.addTreatment, h99, hsoil, hl]
      | int q => rw [hl] at hd; cases hd
      | rat q => rw [hl] at hd; cases hd
      | str q => rw [hl] at hd; cases hd

theorem soilStep_profile {s : GSRunState} {sp : Option String}
    (so : Option String) (hsp : GSRun.spTruthy sp = true) :
    GSRun.soilStep s so sp =
      .ok ({ s with soil_profile := (intern strBeq s.soil_profile (sp.getD "")).1 },
        (intern strBeq s.soil_profile (sp.getD "")).2) := by
  simp [GSRun.soilStep, hsp]

theorem soilStep_missing {s : GSRunState} {sp : Option String}
    (hsp : GSRun.spTruthy sp = false) :
    GSRun.soilStep s none sp = .error (.missingSoil, s) := by
  simp [GSRun.soilStep, hsp]

theorem soilStep_soil {s : GSRunState} {sp : Option String} {sv : String}
    (hsp : GSRun.spTruthy sp = false) :
    GSRun.soilStep s (some sv) sp =
      .ok ({ s with soil := (intern strBeq s.soil sv).1 },
        (intern strBeq s.soil sv).2) := by
  simp [GSRun.soilStep, hsp]

theorem addTreatment_soil_error {s : GSRunState} {w : String} {nn : NSched}
    {p : PlantingVal} {c : String} {so sp : Option String}
    {e : GSRun.AddError × GSRunState}
    (h99 : s.treatments.length < 99)
    (hsoil : GSRun.soilStep { s with weather := (intern strBeq s.weather w).1 }
      so sp = .error e) :
    GSRun.addTreatment s w nn p c so sp = .error e := by
  simp [GSRun.addTreatment, h99, hsoil]

theorem addTreatment_pdate_error {s : GSRunState} {w : String} {nn : NSched}
    {m : PDict} {c : String} {so sp : Option String}
    {s2 : GSRunState} {soil_n : Nat}
    (h99 : s.treatments.length < 99)
    (hsoil : GSRun.soilStep { s with weather := (intern strBeq s.weather w).1 }
      so sp = .ok (s2, soil_n))
    (hd : plantingPDate (.dict m) = none) :
    GSRun.addTreatment s w nn (.dict m) c so sp = .error
      ((match List.lookup "PDATE" m with
        | none => GSRun.AddError.missingPDate
        | some _ => GSRun.AddError.pdateNotDate),
       { s2 with
        field := (intern pairBeq s2.field ((intern strBeq s.weather w).2, soil_n)).1,
        nitrogen := (intern nschedBeq s2.nitrogen nn).1,
        cultivar := (intern strBeq s2.cultivar c).1,
        planting := (intern plantingBeq s2.planting (.dict m)).1 }) := by
  simp only [plantingPDate] at hd
  cases hl : List.lookup "PDATE" m with
  | none =>
    simp [GSRun.addTreatment, h99, hsoil, hl]
  | some v =>
    cases v with
    | date d' => rw [hl] at hd; cases hd
    | int q => simp [GSRun.addTreatment, h99, hsoil, hl]
    | rat q => simp [GSRun.addTreatment, h99, hsoil, hl]
    | str q => simp [GSRun.addTreatment, h99, hsoil, hl]

theorem addTreatment_ok_inv {s : GSRunState} {w : String} {nn : NSched}
    {p : PlantingVal} {c : String} {so sp : Option String} {s' : GSRunState}
    (h : GSRun.addTreatment s w nn p c so sp = .ok s') :
    s.treatments.length < 99 ∧
    ∃ s2 soil_n d,
      GSRun.soilStep { s with weather := (intern strBeq s.weather w).1 } so sp
        = .ok (s2, soil_n) ∧
      plantingPDate p = some d ∧
      s' = { s2 with
        field := (intern pairBeq s2.field ((intern strBeq s.weather w).2, soil_n)).1,
        nitrogen := (intern nschedBeq s2.nitrogen nn).1,
        cultivar := (intern strBeq s2.cultivar c).1,
        planting := (intern plantingBeq s2.planting p).1,
        start_date := minDate s2.start_date d,
        treatments := s2.treatments ++ [((intern strBeq s2.cultivar c).2,
          (intern pairBeq s2.field ((intern strBeq s.weather w).2, soil_n)).2,
          (intern plantingBeq s2.planting p).2,
          (intern nschedBeq s2.nitrogen nn).2)] } := by
  by_cases h99 : s.treatments.length < 99
  · cases hss : GSRun.soilStep { s with weather := (intern strBeq s.weather w).1 } so sp with
    | error e => rw [addTreatment_soil_error h99 hss] at h; cases h
    | ok r =>
      obtain ⟨s2, soil_n⟩ := r
      cases hd : plantingPDate p with
      | none =>
        cases p with
        | date d => simp [plantingPDate] at hd
        | dict m => rw [addTreatment_pdate_error h99 hss hd] at h; cases h
      | some d =>
        rw [addTreatment_ok_char h99 hss hd] at h
        injection h with h
        exact ⟨h99, s2, soil_n, d, rfl, rfl, h.symm⟩
  · rw [addTreatment_capacity h99] at h; cases h

theorem soilStep_ok_frame {s s2 : GSRunState} {so sp : Option String}
    {soil_n : Nat}
    (h : GSRun.soilStep s so sp = .ok (s2, soil_n)) :
    s2.treatments = s.treatments ∧ s2.weather = s.weather ∧
    s2.field = s.field ∧ s2.nitrogen = s.nitrogen ∧
    s2.cultivar = s.cultivar ∧ s2.planting = s.planting ∧
    s2.crop = s.crop ∧ s2.start_date = s.start_date := by
  by_cases hsp : GSRun.spTruthy sp = true
  · rw [soilStep_profile so hsp] at h
    injection h with h
    injection h with h1 h2
    subst h1
    simp
  · have hsp' : GSRun.spTruthy sp = false := by simpa using hsp
    cases so with
    | none => rw [soilStep_missing hsp'] at h; cases h
    | some sv =>
      rw [soilStep_soil hsp'] at h
      injection h with h
      injection h with h1 h2
      subst h1
      simp

theorem soilStep_error_inv {s s2 : GSRunState} {so sp : Option String}
    {e : GSRun.AddError}
    (h : GSRun.soilStep s so sp = .error (e, s2)) :
    e = .missingSoil ∧ s2 = s := by
  by_cases hsp : GSRun.spTruthy sp = true
  · rw [soilStep_profile so hsp] at h; cases h
  · have hsp' : GSRun.spTruthy sp = false := by simpa using hsp
    cases so with
    | none =>
      rw [soilStep_missing hsp'] at h
      injection h with h
      injection h with h1 h2
      exact ⟨h1.symm, h2.symm⟩
    | some sv => rw [soilStep_soil hsp'] at h; cases h

theorem addTreatment_error_inv {s : GSRunState} {w : String} {nn : NSched}
    {p : PlantingVal} {c : String} {so sp : Option String}
    {e : GSRun.AddError} {s' : GSRunState}
    (h : GSRun.addTreatment s w nn p c so sp = .error (e, s')) :
    s'.treatments = s.treatments ∧
    (s.treatments.length < 99 → e ≠ .capacity) ∧
    (¬ s.treatments.length < 99 → e = .capacity ∧ s' = s) := by
  by_cases h99 : s.treatments.length < 99
  · cases hss : GSRun.soilStep { s with weather := (intern strBeq s.weather w).1 } so sp with
    | error err =>
      obtain ⟨e2, serr⟩ := err
      obtain ⟨he, hs⟩ := soilStep_error_inv hss
      subst he
      subst hs
      rw [addTreatment_soil_error h99 hss] at h
      injection h with h
      injection h with h1 h2
      subst h1
      subst h2
      refine ⟨rfl, fun _ hc => GSRun.AddError.noConfusion hc, fun hc => absurd h99 hc⟩
    | ok r =>
      obtain ⟨s2, soil_n⟩ := r
      cases hd : plantingPDate p with
      | none =>
        cases p with
        | date d => simp [plantingPDate] at hd
        | dict m =>
          rw [addTreatment_pdate_error h99 hss hd] at h
          injection h with h
          injection h with h1 h2
          subst h2
          refine ⟨?_, fun _ hc => ?_, fun hc => absurd h99 hc⟩
          · simpa using (soilStep_ok_frame hss).1
          · rw [← h1] at hc
            cases hl : List.lookup "PDATE" m with
            | none =>
              rw [hl] at hc
              exact GSRun.AddError.noConfusion hc
            | some v =>
              rw [hl] at hc
              exact GSRun.AddError.noConfusion hc
      | some d =>
        rw [addTreatment_ok_char h99 hss hd] at h
        cases h
  · rw [addTreatment_capacity h99] at h
    injection h with h
    injection h with h1 h2
    subst h1
    subst h2
    exact ⟨rfl, fun hlt => absurd hlt h99, fun _ => ⟨rfl, rfl⟩⟩

/-! ## Reachable registry states -/

/-- States a `GSRun` object can reach through the registry API: freshly
constructed, after a successful or a failed `add_treatment` call (a failed
call leaves its partial mutations behind), or after `clear()`.  (`run()`
only rebuilds the serialized buffers / start date and is outside the
state-transition fragment the claims quantify over.) -/
inductive Reachable : GSRunState → Prop
  | init (crop : String) : Reachable (GSRun.init crop)
  | stepOk {s s' : GSRunState} (w : String) (nn : NSched) (p : PlantingVal)
      (c : String) (so sp : Option String) :
      Reachable s → GSRun.addTreatment s w nn p c so sp = .ok s' →
      Reachable s'
  | stepErr {s s' : GSRunState} {e : GSRun.AddError} (w : String)
      (nn : NSched) (p : PlantingVal) (c : String) (so sp : Option String) :
      Reachable s → GSRun.addTreatment s w nn p c so sp = .error (e, s') →
      Reachable s'
  | clear {s : GSRunState} : Reachable s → Reachable (GSRun.clear s)

theorem reachable_treatments_le {s : GSRunState} (h : Reachable s) :
    s.treatments.length ≤ 99 := by
  induction h with
  | init crop => simp [GSRun.init]
  | stepOk w nn p c so sp hr hstep ih =>
    obtain ⟨h99, s2, soil_n, d, hss, hd, hs'⟩ := addTreatment_ok_inv hstep
    subst hs'
    have hfr := (soilStep_ok_frame hss).1
    simp only [List.length_append, hfr]
    simp only [List.length_cons, List.length_nil]
    omega
  | stepErr w nn p c so sp hr hstep ih =>
    rw [(addTreatment_error_inv hstep).1]
    exact ih
  | clear hr ih => simp [GSRun.clear, GSRun.initOn, GSRun.init]

/-! ## Claim theorems -/

/-- **C1**: Dimension interning is idempotent and structural.  (1) For every
table and value, with the dimension's (reflexive) Python equality: a value
already present leaves the table unchanged and yields the 1-based index of
its first occurrence; an unseen value is appended and yields the table
length after the append; re-adding an interned value changes nothing and
returns the same index.  (2) Two planting dicts with identical key/value
pairs in different key order are equal for the interning equality.  (3)
Every successful `add_treatment` call updates each dimension table
(weather, soil, soil-profile, field, nitrogen, cultivar, planting) exactly
by `intern` with that dimension's value equality. -/
theorem C1_interning_idempotent_structural :
    (∀ (α : Type) (eqb : α → α → Bool) (xs : List α) (v : α),
      eqb v v = true →
        (xs.any (fun x => eqb v x) = true →
          (intern eqb xs v).1 = xs ∧
          (intern eqb xs v).2 = xs.findIdx (fun x => eqb v x) + 1) ∧
        (xs.any (fun x => eqb v x) = false →
          (intern eqb xs v).1 = xs ++ [v] ∧
          (intern eqb xs v).2 = xs.length + 1) ∧
        intern eqb (intern eqb xs v).1 v
          = ((intern eqb xs v).1, (intern eqb xs v).2)) ∧
    (∀ m1 m2 : PDict, List.Perm m1 m2 → (m1.map Prod.fst).Nodup →
      plantingBeq (.dict m1) (.dict m2) = true) ∧
    (∀ (s : GSRunState) (w : String) (nn : NSched) (p : PlantingVal)
        (c : String) (so sp : Option String) (s' : GSRunState),
      GSRun.addTreatment s w nn p c so sp = .ok s' →
        s'.weather = (intern strBeq s.weather w).1 ∧
        s'.nitrogen = (intern nschedBeq s.nitrogen nn).1 ∧
        s'.cultivar = (intern strBeq s.cultivar c).1 ∧
        s'.planting = (intern plantingBeq s.planting p).1 ∧
        (GSRun.spTruthy sp = true →
          s'.soil_profile = (intern strBeq s.soil_profile (sp.getD "")).1 ∧
          s'.soil = s.soil) ∧
        (∀ sv, GSRun.spTruthy sp = false → so = some sv →
          s'.soil = (intern strBeq s.soil sv).1 ∧
          s'.soil_profile = s.soil_profile) ∧
        (∀ s2 soil_n,
          GSRun.soilStep { s with weather := (intern strBeq s.weather w).1 }
            so sp = .ok (s2, soil_n) →
          s'.field = (intern pairBeq s.field
            ((intern strBeq s.weather w).2, soil_n)).1)) := by
  refine ⟨?_, ?_, ?_⟩
  · intro α eqb xs v hrefl
    refine ⟨fun h => ?_, fun h => ?_, intern_readd eqb xs v hrefl⟩
    · rw [intern_of_mem eqb xs v h]
      exact ⟨rfl, rfl⟩
    · rw [intern_of_not_mem eqb xs v h hrefl]
      exact ⟨rfl, rfl⟩
  · intro m1 m2 hp hn
    simpa [plantingBeq] using pdictBeq_of_perm hp hn
  · intro s w nn p c so sp s' h
    obtain ⟨h99, s2, soil_n, d, hss, hd, hs'⟩ := addTreatment_ok_inv h
    have hfr := soilStep_ok_frame hss
    subst hs'
    refine ⟨by simp [hfr.2.1], by simp [hfr.2.2.2.1], by simp [hfr.2.2.2.2.1],
      by simp [hfr.2.2.2.2.2.1], ?_, ?_, ?_⟩
    · intro hsp
      rw [soilStep_profile so hsp] at hss
      injection hss with hss
      injection hss with h1 h2
      subst h1
      exact ⟨by simp, by simp⟩
    · intro sv hsp hso
      subst hso
      rw [soilStep_soil hsp] at hss
      injection hss with hss
      injection hss with h1 h2
      subst h1
      exact ⟨by simp, by simp⟩
    · intro s2' soil_n' hss2
      rw [hss] at hss2
      injection hss2 with hss2
      injection hss2 with h1 h2
      subst h1
      subst h2
      simp [hfr.2.2.1]

/-- The registry state after one treatment is added to a fresh Maize
registry (used to witness C1 at a concrete input). -/
def c1AddedState : GSRunState where
  crop := "Maize"
  weather := ["W2101.WTH"]
  soil := ["SOIL.SOL"]
  soil_profile := []
  field := [(1, 1)]
  planting := [.date ⟨2021, 5, 1⟩]
  nitrogen := [[(20, 50)]]
  cultivar := ["CV01"]
  treatments := [(1, 1, 1, 1)]
  start_date := ⟨2021, 5, 1⟩
  sol_str := ""
  gsx_str := ""
  batch_str := ""

/-- Witness for C1 at concrete inputs. -/
theorem C1_witness :
    strBeq "a" "a" = true ∧
    (["b"].any (fun x => strBeq "a" x) = false ∧
      (intern strBeq ["b"] "a").1 = ["b"] ++ ["a"] ∧
      (intern strBeq ["b"] "a").2 = ["b"].length + 1) ∧
    (List.Perm [("PDATE", PV.date ⟨2021, 5, 1⟩), ("PPOP", PV.int 4)]
        [("PPOP", PV.int 4), ("PDATE", PV.date ⟨2021, 5, 1⟩)] ∧
      plantingBeq (.dict [("PDATE", PV.date ⟨2021, 5, 1⟩), ("PPOP", PV.int 4)])
        (.dict [("PPOP", PV.int 4), ("PDATE", PV.date ⟨2021, 5, 1⟩)]) = true) ∧
    (GSRun.addTreatment (GSRun.init "Maize") "W2101.WTH" [(20, 50)]
        (.date ⟨2021, 5, 1⟩) "CV01" (some "SOIL.SOL") none = .ok c1AddedState ∧
      c1AddedState.weather
        = (intern strBeq (GSRun.init "Maize").weather "W2101.WTH").1) := by
  refine ⟨rfl, ?_, ?_, ?_⟩
  · have h := (C1_interning_idempotent_structural.1 String strBeq ["b"] "a"
      rfl).2.1 (by decide)
    exact ⟨by decide, h.1, h.2⟩
  · have hperm : List.Perm [("PDATE", PV.date ⟨2021, 5, 1⟩), ("PPOP", PV.int 4)]
        [("PPOP", PV.int 4), ("PDATE", PV.date ⟨2021, 5, 1⟩)] := by decide
    exact ⟨hperm, C1_interning_idempotent_structural.2.1 _ _ hperm (by decide)⟩
  · have hok : GSRun.addTreatment (GSRun.init "Maize") "W2101.WTH" [(20, 50)]
        (.date ⟨2021, 5, 1⟩) "CV01" (some "SOIL.SOL") none = .ok c1AddedState := by
      rfl
    exact ⟨hok,
      (C1_interning_idempotent_structural.2.2 _ _ _ _ _ _ _ _ hok).1⟩

/-- **C2**: `add_treatment` fails with the capacity error exactly when a
100th treatment would be created: with 99 treatments present every call
fails with the capacity error (and does not change the state); with fewer
the capacity error cannot occur; a failing call never drops or overwrites a
treatment (the treatment list is untouched by every error); a successful
call appends exactly one treatment; and no reachable registry ever holds
more than 99 treatments. -/
theorem C2_treatment_capacity :
    (∀ (s : GSRunState) (w : String) (nn : NSched) (p : PlantingVal)
        (c : String) (so sp : Option String),
      s.treatments.length = 99 →
        GSRun.addTreatment s w nn p c so sp = .error (.capacity, s)) ∧
    (∀ (s : GSRunState) (w : String) (nn : NSched) (p : PlantingVal)
        (c : String) (so sp : Option String) (e : GSRun.AddError)
        (s' : GSRunState),
      GSRun.addTreatment s w nn p c so sp = .error (e, s') →
        s'.treatments = s.treatments ∧
        (s.treatments.length < 99 → e ≠ .capacity)) ∧
    (∀ (s : GSRunState) (w : String) (nn : NSched) (p : PlantingVal)
        (c : String) (so sp : Option String) (s' : GSRunState),
      GSRun.addTreatment s w nn p c so sp = .ok s' →
        s.treatments.length < 99 ∧
        ∃ t, s'.treatments = s.treatments ++ [t]) ∧
    (∀ s : GSRunState, Reachable s → s.treatments.length ≤ 99) ∧
    (∀ (s : GSRunState) (w : String) (nn : NSched) (p : PlantingVal)
        (c : String) (so sp : Option String),
      Reachable s →
        ((∃ s', GSRun.addTreatment s w nn p c so sp = .error (.capacity, s'))
          ↔ s.treatments.length = 99)) := by
  refine ⟨?_, ?_, ?_, fun s h => reachable_treatments_le h, ?_⟩
  · intro s w nn p c so sp h99
    exact addTreatment_capacity (by omega) w nn p c so sp
  · intro s w nn p c so sp e s' h
    exact ⟨(addTreatment_error_inv h).1, (addTreatment_error_inv h).2.1⟩
  · intro s w nn p c so sp s' h
    obtain ⟨h99, s2, soil_n, d, hss, hd, hs'⟩ := addTreatment_ok_inv h
    subst hs'
    refine ⟨h99, ⟨(intern strBeq s2.cultivar c).2,
      (intern pairBeq s2.field ((intern strBeq s.weather w).2, soil_n)).2,
      (intern plantingBeq s2.planting p).2,
      (intern nschedBeq s2.nitrogen nn).2⟩, ?_⟩
    simp [(soilStep_ok_frame hss).1]
  · intro s w nn p c so sp hr
    constructor
    · rintro ⟨s', herr⟩
      have hinv := addTreatment_error_inv herr
      by_cases h99 : s.treatments.length < 99
      · exact absurd rfl (hinv.2.1 h99)
      · have := reachable_treatments_le hr
        omega
    · intro h99
      exact ⟨s, addTreatment_capacity (by omega) w nn p c so sp⟩

/-- A registry state holding 99 treatments (used to witness C2). -/
def c2FullState : GSRunState :=
  { GSRun.init "Maize" with treatments := List.replicate 99 (1, 1, 1, 1) }

/-- Witness for C2 at concrete inputs. -/
theorem C2_witness :
    c2FullState.treatments.length = 99 ∧
    GSRun.addTreatment c2FullState "W2101.WTH" [] (.date ⟨2021, 5, 1⟩) "CV01"
      (some "SOIL.SOL") none = .error (.capacity, c2FullState) ∧
    Reachable (GSRun.init "Maize") ∧
    (GSRun.init "Maize").treatments.length ≤ 99 := by
  refine ⟨by decide, ?_, Reachable.init "Maize", ?_⟩
  · exact C2_treatment_capacity.1 c2FullState "W2101.WTH" [] (.date ⟨2021, 5, 1⟩)
      "CV01" (some "SOIL.SOL") none (by decide)
  · exact C2_treatment_capacity.2.2.2.1 (GSRun.init "Maize")
      (Reachable.init "Maize")

/-- **C3**: `add_treatment` requires exactly one of a soil-file reference or
an inline (non-empty) soil-profile text block.  Supplying neither fails
with the missing-soil configuration error; supplying exactly one — given
the other preconditions (capacity not reached, planting carries a usable
date) — succeeds. -/
theorem C3_soil_exactly_one :
    (∀ (s : GSRunState) (w : String) (nn : NSched) (p : PlantingVal)
        (c : String) (sp : Option String),
      s.treatments.length < 99 → GSRun.spTruthy sp = false →
        ∃ s', GSRun.addTreatment s w nn p c none sp
          = .error (.missingSoil, s')) ∧
    (∀ (s : GSRunState) (w : String) (nn : NSched) (p : PlantingVal)
        (c : String) (sv : String) (sp : Option String),
      s.treatments.length < 99 → GSRun.spTruthy sp = false →
        (∃ d, plantingPDate p = some d) →
        ∃ s', GSRun.addTreatment s w nn p c (some sv) sp = .ok s') ∧
    (∀ (s : GSRunState) (w : String) (nn : NSched) (p : PlantingVal)
        (c : String) (spv : String),
      s.treatments.length < 99 → spv ≠ "" →
        (∃ d, plantingPDate p = some d) →
        ∃ s', GSRun.addTreatment s w nn p c none (some spv) = .ok s') := by
  refine ⟨?_, ?_, ?_⟩
  · intro s w nn p c sp h99 hsp
    exact ⟨_, addTreatment_soil_error h99 (soilStep_missing hsp)⟩
  · intro s w nn p c sv sp h99 hsp ⟨d, hd⟩
    exact ⟨_, addTreatment_ok_char h99 (soilStep_soil hsp) hd⟩
  · intro s w nn p c spv h99 hspv ⟨d, hd⟩
    have hsp : GSRun.spTruthy (some spv) = true := by
      simpa [GSRun.spTruthy] using hspv
    exact ⟨_, addTreatment_ok_char h99 (soilStep_profile none hsp) hd⟩

/-- Witness for C3 at concrete inputs. -/
theorem C3_witness :
    (GSRun.init "Maize").treatments.length < 99 ∧
    GSRun.spTruthy none = false ∧
    plantingPDate (.date ⟨2021, 5, 1⟩) = some ⟨2021, 5, 1⟩ ∧
    ("*IB00000001 profile" : String) ≠ "" ∧
    (∃ s', GSRun.addTreatment (GSRun.init "Maize") "W2101.WTH" []
      (.date ⟨2021, 5, 1⟩) "CV01" none none = .error (.missingSoil, s')) ∧
    (∃ s', GSRun.addTreatment (GSRun.init "Maize") "W2101.WTH" []
      (.date ⟨2021, 5, 1⟩) "CV01" (some "SOIL.SOL") none = .ok s') ∧
    (∃ s', GSRun.addTreatment (GSRun.init "Maize") "W2101.WTH" []
      (.date ⟨2021, 5, 1⟩) "CV01" none (some "*IB00000001 profile") = .ok s') := by
  refine ⟨by decide, rfl, rfl, by decide, ?_, ?_, ?_⟩
  · exact C3_soil_exactly_one.1 (GSRun.init "Maize") "W2101.WTH" []
      (.date ⟨2021, 5, 1⟩) "CV01" none (by decide) rfl
  · exact C3_soil_exactly_one.2.1 (GSRun.init "Maize") "W2101.WTH" []
      (.date ⟨2021, 5, 1⟩) "CV01" "SOIL.SOL" none (by decide) rfl ⟨_, rfl⟩
  · exact C3_soil_exactly_one.2.2 (GSRun.init "Maize") "W2101.WTH" []
      (.date ⟨2021, 5, 1⟩) "CV01" "*IB00000001 profile" (by decide)
      (by decide) ⟨_, rfl⟩

/-- **C9**: `add_treatment` is not atomic on the missing-soil error: when
neither soil argument is supplied, a previously unseen weather value has
already been appended to the weather table when the error is raised, so
the failing call leaves the weather dimension one entry larger. -/
theorem C9_missing_soil_mutates_weather :
    ∀ (s : GSRunState) (w : String) (nn : NSched) (p : PlantingVal)
      (c : String) (sp : Option String),
      s.treatments.length < 99 → GSRun.spTruthy sp = false →
      s.weather.any (fun x => strBeq w x) = false →
      GSRun.addTreatment s w nn p c none sp
        = .error (.missingSoil, { s with weather := s.weather ++ [w] }) ∧
      (s.weather ++ [w]).length = s.weather.length + 1 := by
  intro s w nn p c sp h99 hsp hnew
  have hrefl : strBeq w w = true := by simp [strBeq]
  refine ⟨?_, by simp⟩
  have h : GSRun.addTreatment s w nn p c none sp
      = .error (.missingSoil,
          { s with weather := (intern strBeq s.weather w).1 }) :=
    addTreatment_soil_error h99 (soilStep_missing hsp)
  rw [intern_of_not_mem strBeq s.weather w hnew hrefl] at h
  exact h

/-- Witness for C9 at a concrete input. -/
theorem C9_witness :
    (GSRun.init "Maize").treatments.length < 99 ∧
    GSRun.spTruthy none = false ∧
    (GSRun.init "Maize").weather.any (fun x => strBeq "W2101.WTH" x) = false ∧
    GSRun.addTreatment (GSRun.init "Maize") "W2101.WTH" []
      (.date ⟨2021, 5, 1⟩) "CV01" none none
      = .error (.missingSoil,
          { GSRun.init "Maize" with
              weather := (GSRun.init "Maize").weather ++ ["W2101.WTH"] }) := by
  refine ⟨by decide, rfl, by decide, ?_⟩
  exact (C9_missing_soil_mutates_weather (GSRun.init "Maize") "W2101.WTH" []
    (.date ⟨2021, 5, 1⟩) "CV01" none (by decide) rfl (by decide)).1

/-- **C8**: `clear()` resets every dimension table, the treatment list, the
start date and the serialized buffers to their initial values, preserving
only the crop selection: the result is the state of a freshly constructed
registry with the same crop. -/
theorem C8_clear_resets_to_fresh :
    ∀ s : GSRunState,
      GSRun.clear s = GSRun.init s.crop ∧
      (GSRun.clear s).crop = s.crop ∧
      (GSRun.clear s).weather = [] ∧
      (GSRun.clear s).soil = [] ∧
      (GSRun.clear s).soil_profile = [] ∧
      (GSRun.clear s).field = [] ∧
      (GSRun.clear s).planting = [] ∧
      (GSRun.clear s).nitrogen = [] ∧
      (GSRun.clear s).cultivar = [] ∧
      (GSRun.clear s).treatments = [] ∧
      (GSRun.clear s).start_date = ⟨9999, 9, 9⟩ ∧
      (GSRun.clear s).sol_str = "" ∧
      (GSRun.clear s).gsx_str = "" ∧
      (GSRun.clear s).batch_str = "" := by
  intro s
  refine ⟨rfl, rfl, rfl, rfl, rfl, rfl, rfl, rfl, rfl, rfl, rfl, rfl, rfl, rfl⟩

/-- A right-justified field of width `w` is exactly `w` characters when its
content fits. -/
theorem rjust_length {w : Nat} {s : String} (h : s.length ≤ w) :
    (rjust w s).length = w := by
  simp [rjust]
  omega

/-- **C4**: for every run with at most 99 treatments the serialized
treatments section carries one data line per treatment; the treatment
numbers are exactly `1..N` in the order the treatments were added; each
data line begins with its 1-based number right-justified in a 2-character
field. -/
theorem C4_treatment_numbering :
    ∀ ts : List (Nat × Nat × Nat × Nat), ts.length ≤ 99 →
      treatment_build_gsx ts =
        "*TREATMENTS                        -------------FACTOR LEVELS------------\n" ++
        "@N R O C TNAME.................... CU FL SA IC MP MI MF MR MC MT ME MH SM\n" ++
        String.join (treatmentDataLines ts) ++ "\n" ∧
      (ts.enumFrom 1).map Prod.fst = List.range' 1 ts.length ∧
      (treatmentDataLines ts).length = ts.length ∧
      (∀ i t, ts[i]? = some t →
        (treatmentDataLines ts)[i]? = some (treatmentLine (1 + i) t)) ∧
      (∀ n t, 1 ≤ n → n ≤ 99 →
        (∃ rest, treatmentLine n t = rjust 2 (toString (n : Int)) ++ rest) ∧
        (rjust 2 (toString (n : Int))).length = 2) := by
  intro ts _
  refine ⟨rfl, by simp [List.enumFrom_map_fst], ?_, ?_, ?_⟩
  · simp [treatmentDataLines]
  · intro i t h
    simp [treatmentDataLines, List.getElem?_enumFrom, h]
  · intro n t h1 h99
    constructor
    · refine ⟨" 1 0 0 SAMPLE " ++ (ljust 18 (toString n) ++ (" " ++
        (fmtInt 2 (t.1 : Int) ++ (" " ++ (fmtInt 2 (t.2.1 : Int) ++ ("  0 " ++
        (fmtInt 2 0 ++ (" " ++ (fmtInt 2 (t.2.2.1 : Int) ++ ("  0 " ++
        (fmtInt 2 (t.2.2.2 : Int) ++ "  0  0  0  0  0  1\n"))))))))))), ?_⟩
      simp [treatmentLine, fmtInt, String.append_assoc]
    · have hb : ∀ m : Nat, m < 100 → (toString (m : Int)).length ≤ 2 := by decide
      exact rjust_length (hb n (by omega))

/-- Witness for C4 at a concrete input. -/
theorem C4_witness :
    ([((1 : Nat), (1 : Nat), (1 : Nat), (1 : Nat)), (2, 1, 1, 2)].length ≤ 99) ∧
    (treatmentDataLines [(1, 1, 1, 1), (2, 1, 1, 2)]).length = 2 ∧
    ([((1 : Nat), (1 : Nat), (1 : Nat), (1 : Nat)), (2, 1, 1, 2)].enumFrom 1).map Prod.fst
      = List.range' 1 2 ∧
    (rjust 2 (toString ((2 : Nat) : Int))).length = 2 := by
  have h := C4_treatment_numbering [(1, 1, 1, 1), (2, 1, 1, 2)] (by decide)
  exact ⟨by decide, h.2.2.1, h.2.1, (h.2.2.2.2 2 (2, 1, 1, 2) (by decide) (by decide)).2⟩

theorem fertilizerLines_go_length (n : Nat) (nitro : List NSched) :
    ((nitro.enumFrom n).flatMap
      (fun p => p.2.map (fun a => fertLine p.1 a.1 a.2))).length
      = (nitro.map List.length).sum := by
  induction nitro generalizing n with
  | nil => simp
  | cons h t ih => simp [List.enumFrom_cons, ih]

/-- **C5**: the fertilizer section emits exactly one line per (offset,
amount) application — the total number of data lines is the sum of the
schedule lengths, and every application of the schedule stored at (0-based)
position `i` contributes its line carrying the serialized index `i + 1`;
every line begins with its schedule index right-justified in two
characters; the schedule `[(20, 50.0), (40, 30.0)]` yields exactly the two
expected lines, sharing index 1, with offsets 20/40 and the amounts
right-aligned to one decimal place. -/
theorem C5_fertilizer_one_line_per_application :
    (∀ nitro : List NSched,
      fertilizer_build nitro =
        "*FERTILIZERS (INORGANIC)\n" ++
        "@F FDATE  FMCD  FACD  FDEP  FAMN  FAMP  FAMK  FAMC  FAMO  FOCD FERNAME\n" ++
        String.join (fertilizerLines nitro) ++ "\n") ∧
    (∀ nitro : List NSched,
      (fertilizerLines nitro).length = (nitro.map List.length).sum) ∧
    (∀ (nitro : List NSched) (i : Nat) (sch : NSched), nitro[i]? = some sch →
      ∀ a ∈ sch, fertLine (1 + i) a.1 a.2 ∈ fertilizerLines nitro) ∧
    (∀ (k : Nat) (dap : Int) (rate : Rat),
      ∃ rest, fertLine k dap rate = rjust 2 (toString (k : Int)) ++ rest) ∧
    fertilizerLines [[(20, 50), (40, 30)]] =
      [" 1 20    FE005   -99     5  50.0   -99   -99   -99   -99   -99 -99\n",
       " 1 40    FE005   -99     5  30.0   -99   -99   -99   -99   -99 -99\n"] := by
  refine ⟨fun _ => rfl, fun nitro => fertilizerLines_go_length 1 nitro, ?_, ?_, ?_⟩
  · intro nitro i sch h a ha
    have hmem : (1 + i, sch) ∈ nitro.enumFrom 1 := by
      rw [List.mk_add_mem_enumFrom_iff_getElem?]
      exact h
    simp only [fertilizerLines, List.mem_flatMap]
    refine ⟨(1 + i, sch), hmem, ?_⟩
    show fertLine (1 + i) a.1 a.2 ∈ sch.map (fun a => fertLine (1 + i) a.1 a.2)
    apply List.mem_map_of_mem
    exact ha
  · intro k dap rate
    refine ⟨" " ++ (ljust 5 (toString dap) ++ (" FE005   -99     5 " ++
      (fmtF1 5 rate ++ "   -99   -99   -99   -99   -99 -99\n"))), ?_⟩
    simp [fertLine, fmtInt, String.append_assoc]
  · decide

/-- Witness for C5 at a concrete input. -/
theorem C5_witness :
    ([[((20 : Int), (50 : Rat)), (40, 30)]][0]? = some [(20, 50), (40, 30)]) ∧
    ((20, (50 : Rat)) ∈ ([((20 : Int), (50 : Rat)), (40, 30)] : NSched)) ∧
    fertLine 1 20 50 ∈ fertilizerLines [[(20, 50), (40, 30)]] ∧
    (fertilizerLines [[(20, 50), (40, 30)]]).length
      = ([[((20 : Int), (50 : Rat)), (40, 30)]].map List.length).sum := by
  refine ⟨by decide, by decide, ?_, ?_⟩
  · exact C5_fertilizer_one_line_per_application.2.2.1
      [[(20, 50), (40, 30)]] 0 [(20, 50), (40, 30)] (by decide) (20, 50) (by decide)
  · exact C5_fertilizer_one_line_per_application.2.1 [[(20, 50), (40, 30)]]

theorem mergedOptions_congr {o1 o2 : SimCtrl}
    (h : ∀ k ∈ simKeys, List.lookup k o1 = List.lookup k o2) :
    mergedOptions o1 = mergedOptions o2 := by
  unfold mergedOptions
  apply List.map_congr_left
  intro kv hkv
  rw [h kv.1 (List.mem_map_of_mem Prod.fst hkv)]

/-- The string an `Except`-valued serializer produced (empty on error). -/
def okStr (e : Except String String) : String := e.toOption.getD ""

set_option maxRecDepth 5000 in
/-- **C6**: the simulation-controls section is a key-by-key merge of the
override mapping over the documented defaults: the output depends only on
the override's value at the recognized keys (so unrecognized keys have no
effect), a recognized key present in the override takes the override value
and an absent one takes its default, and the override of WATER by N
changes exactly one byte of the all-defaults output — the WATER field,
whose default is Y. -/
theorem C6_simulation_controls_merge :
    (∀ (d : PDate) (o1 o2 : SimCtrl),
      (∀ k ∈ simKeys, List.lookup k o1 = List.lookup k o2) →
      options_build d o1 = options_build d o2) ∧
    (∀ (o : SimCtrl) (i : Nat) (kv : String × PV),
      DEFAULT_SIMULATION_OPTIONS[i]? = some kv →
        (∀ v, List.lookup kv.1 o = some v → (mergedOptions o)[i]? = some v) ∧
        (List.lookup kv.1 o = none → (mergedOptions o)[i]? = some kv.2)) ∧
    (∀ (d : PDate) (o : SimCtrl) (k : String) (v : PV), k ∉ simKeys →
      options_build d ((k, v) :: o) = options_build d o) ∧
    ((options_build ⟨2021, 5, 1⟩ []).toOption.isSome = true ∧
      (options_build ⟨2021, 5, 1⟩ [("WATER", .str "N")]).toOption.isSome = true ∧
      (okStr (options_build ⟨2021, 5, 1⟩ [])).length = 1231 ∧
      (okStr (options_build ⟨2021, 5, 1⟩ [("WATER", .str "N")])).length = 1231 ∧
      (okStr (options_build ⟨2021, 5, 1⟩ [])).data.getD 256 ' ' = 'Y' ∧
      (okStr (options_build ⟨2021, 5, 1⟩ [("WATER", .str "N")])).data.getD 256 ' '
        = 'N' ∧
      (okStr (options_build ⟨2021, 5, 1⟩ [("WATER", .str "N")])).data.take 256
        = (okStr (options_build ⟨2021, 5, 1⟩ [])).data.take 256 ∧
      (okStr (options_build ⟨2021, 5, 1⟩ [("WATER", .str "N")])).data.drop 257
        = (okStr (options_build ⟨2021, 5, 1⟩ [])).data.drop 257) := by
  refine ⟨?_, ?_, ?_, by decide, by decide, by decide, by decide, by decide,
    by decide, by decide, by decide⟩
  · intro d o1 o2 h
    unfold options_build
    rw [mergedOptions_congr h]
  · intro o i kv hkv
    constructor
    · intro v hv
      simp [mergedOptions, List.getElem?_map, hkv, hv]
    · intro hv
      simp [mergedOptions, List.getElem?_map, hkv, hv]
  · intro d o k v hk
    unfold options_build
    congr 1
    apply mergedOptions_congr
    intro k2 hk2
    have hne : (k2 == k) = false :=
      beq_eq_false_iff_ne.mpr (fun he => hk (he ▸ hk2))
    simp [List.lookup, hne]

/-- Witness for C6 at concrete inputs. -/
theorem C6_witness :
    (∀ k ∈ simKeys, List.lookup k ([("UNKNOWN", PV.str "X")] : SimCtrl)
      = List.lookup k ([] : SimCtrl)) ∧
    options_build ⟨2021, 5, 1⟩ [("UNKNOWN", PV.str "X")]
      = options_build ⟨2021, 5, 1⟩ [] ∧
    ("UNKNOWN" ∉ simKeys) ∧
    DEFAULT_SIMULATION_OPTIONS[0]? = some ("WATER", PV.str "Y") ∧
    (mergedOptions [("WATER", PV.str "N")])[0]? = some (PV.str "N") ∧
    (mergedOptions [])[0]? = some (PV.str "Y") := by
  refine ⟨by decide, ?_, by decide, by decide, ?_, ?_⟩
  · exact C6_simulation_controls_merge.1 ⟨2021, 5, 1⟩ [("UNKNOWN", PV.str "X")]
      [] (by decide)
  · exact (C6_simulation_controls_merge.2.1 [("WATER", PV.str "N")] 0
      ("WATER", PV.str "Y") (by decide)).1 (PV.str "N") (by decide)
  · exact (C6_simulation_controls_merge.2.1 [] 0
      ("WATER", PV.str "Y") (by decide)).2 (by decide)

theorem ascii_uppercase_nodup : ascii_uppercase.Nodup := by decide

theorem WTH_IDS_eq_product_map :
    WTH_IDS = (ascii_uppercase ×ˢ ascii_uppercase).map
      (fun p => String.mk [p.1, p.2]) := by
  simp [WTH_IDS, SProd.sprod, List.product, List.map_flatMap, List.map_map,
    Function.comp_def]

theorem mkTwoChar_injective :
    Function.Injective (fun p : Char × Char => String.mk [p.1, p.2]) := by
  intro p q h
  obtain ⟨a, b⟩ := p
  obtain ⟨c, d⟩ := q
  have hd := congrArg String.data h
  simp only [List.cons.injEq, and_true] at hd
  exact Prod.ext hd.1 hd.2

theorem WTH_IDS_nodup : WTH_IDS.Nodup := by
  rw [WTH_IDS_eq_product_map]
  exact (ascii_uppercase_nodup.product ascii_uppercase_nodup).map mkTwoChar_injective

theorem WTH_IDS_length : WTH_IDS.length = 676 := by
  rw [WTH_IDS_eq_product_map]
  simp only [List.length_map, List.length_product]
  decide

/-- **C7**: the weather-station identifier in the fields section is a
function of the weather-dimension index through the fixed sequence
`WTH_IDS = AA, AB, ..., ZZ`: the sequence holds 676 pairwise-distinct
entries (so distinct weather indices up to 676 receive distinct codes),
every entry is a DSSAT-compliant two-uppercase-letter code, and each field
line embeds `WTH_IDS[weather_n - 1]` after the `SE` prefix of the station
name. -/
theorem C7_weather_station_ids :
    WTH_IDS.length = 676 ∧
    WTH_IDS.Nodup ∧
    (∀ i j : Nat, i < 676 → j < 676 →
      WTH_IDS.getD i "" = WTH_IDS.getD j "" → i = j) ∧
    (∀ s ∈ WTH_IDS, s.length = 2 ∧ ∀ ch ∈ s.data, 'A' ≤ ch ∧ ch ≤ 'Z') ∧
    (∀ (tab : List String) (n weather_n soil_n : Nat),
      ∃ t, fieldLine tab n weather_n soil_n =
        fmtInt 2 (n : Int) ++ (" SEFL00" ++ (fmtIntZ 2 (n : Int) ++ (" SE" ++
          (wthId weather_n ++ t))))) := by
  refine ⟨WTH_IDS_length, WTH_IDS_nodup, ?_, ?_, ?_⟩
  · intro i j hi hj heq
    have hi' : i < WTH_IDS.length := by rw [WTH_IDS_length]; exact hi
    have hj' : j < WTH_IDS.length := by rw [WTH_IDS_length]; exact hj
    rw [List.getD_eq_getElem?_getD, List.getD_eq_getElem?_getD,
      List.getElem?_eq_getElem hi', List.getElem?_eq_getElem hj'] at heq
    simp only [Option.getD_some] at heq
    exact (WTH_IDS_nodup.getElem_inj_iff).mp heq
  · intro s hs
    rw [WTH_IDS_eq_product_map] at hs
    obtain ⟨⟨a, b⟩, hmem, rfl⟩ := List.mem_map.mp hs
    obtain ⟨ha, hb⟩ := List.mem_product.mp hmem
    have hbound : ∀ c ∈ ascii_uppercase, 'A' ≤ c ∧ c ≤ 'Z' := by decide
    refine ⟨rfl, ?_⟩
    intro ch hch
    rcases List.mem_cons.mp hch with h | h
    · exact h ▸ hbound a ha
    · rcases List.mem_cons.mp h with h' | h'
      · exact h' ▸ hbound b hb
      · cases h'
  · intro tab n weather_n soil_n
    refine ⟨pySliceM8M4 (tab.getD (weather_n - 1) "") ++
      ("   -99     0 DR000     0     0 00000 -99    200  IB000000" ++
        (fmtIntZ 2 (soil_n : Int) ++ " -99\n")), ?_⟩
    simp [fieldLine, String.append_assoc]

/-- Witness for C7 at concrete inputs. -/
theorem C7_witness :
    (0 : Nat) < 676 ∧ (27 : Nat) < 676 ∧
    (WTH_IDS.getD 0 "" = WTH_IDS.getD 0 "" → (0 : Nat) = 0) ∧
    ("AB" ∈ WTH_IDS ∧ "AB".length = 2) := by
  refine ⟨by decide, by decide, ?_, ?_⟩
  · exact C7_weather_station_ids.2.2.1 0 0 (by decide) (by decide)
  · have hmem : "AB" ∈ WTH_IDS := by
      rw [WTH_IDS_eq_product_map]
      refine List.mem_map.mpr ⟨('A', 'B'), ?_, rfl⟩
      exact List.mem_product.mpr ⟨by decide, by decide⟩
    exact ⟨hmem, (C7_weather_station_ids.2.2.2.1 "AB" hmem).1⟩

/-! ## Lemmas: `_planting_build` -/

theorem lookup_dictSet_self {m : PDict} {k : String} {v w : PV}
    (h : List.lookup k m = some w) :
    List.lookup k (dictSet m k v) = some v := by
  induction m with
  | nil => cases h
  | cons a t ih =>
    obtain ⟨ka, va⟩ := a
    by_cases hk : k = ka
    · subst hk
      simp [dictSet, List.lookup_cons]
    · have hk' : ¬(ka = k) := fun he => hk he.symm
      have hb : (k == ka) = false := beq_eq_false_iff_ne.mpr hk
      simp only [List.lookup_cons, hb] at h
      simp only [dictSet, List.map_cons, if_neg hk', List.lookup_cons, hb]
      simpa [dictSet] using ih h

theorem lookup_dictSet_ne {m : PDict} {k k2 : String} {v : PV} (h : k2 ≠ k) :
    List.lookup k2 (dictSet m k v) = List.lookup k2 m := by
  induction m with
  | nil => rfl
  | cons a t ih =>
    obtain ⟨ka, va⟩ := a
    by_cases hk : ka = k
    · subst hk
      have hb2 : (k2 == ka) = false := beq_eq_false_iff_ne.mpr h
      simp [dictSet, List.lookup_cons, hb2]
      simpa [dictSet] using ih
    · by_cases hk2 : k2 = ka
      · subst hk2
        simp [dictSet, List.lookup_cons, if_neg hk]
      · have hb2 : (k2 == ka) = false := beq_eq_false_iff_ne.mpr hk2
        simp only [dictSet, List.map_cons, if_neg hk, List.lookup_cons, hb2]
        simpa [dictSet] using ih

theorem processPlantingDict_ok {m m' : PDict}
    (h : processPlantingDict m = .ok m') :
    ∃ d, List.lookup "PDATE" m = some (.date d) ∧
      List.lookup "PDATE" m' = some (.str (fmtYJ d)) ∧
      (∀ ev, List.lookup "EDATE" m = some ev → pvNe99 ev = true →
        ∃ ed, ev = .date ed ∧
          List.lookup "EDATE" m' = some (.str (fmtYJ ed))) := by
  unfold processPlantingDict at h
  cases hp : List.lookup "PDATE" m with
  | none => rw [hp] at h; cases h
  | some v =>
    rw [hp] at h
    cases v with
    | date d =>
      simp only [pvStrftimeYJ] at h
      have hpm1 : List.lookup "PDATE" (dictSet m "PDATE" (.str (fmtYJ d)))
          = some (.str (fmtYJ d)) := lookup_dictSet_self hp
      have hem1 : List.lookup "EDATE" (dictSet m "PDATE" (.str (fmtYJ d)))
          = List.lookup "EDATE" m := lookup_dictSet_ne (by decide)
      cases he : List.lookup "EDATE" (dictSet m "PDATE" (.str (fmtYJ d))) with
      | none =>
        simp only [he] at h
        injection h with h
        subst h
        refine ⟨d, rfl, hpm1, ?_⟩
        intro ev hev _
        rw [hem1] at he
        rw [he] at hev
        cases hev
      | some ev =>
        simp only [he] at h
        by_cases hne : pvNe99 ev = true
        · rw [if_pos hne] at h
          cases ev with
          | date ed =>
            injection h with h
            subst h
            refine ⟨d, rfl, ?_, ?_⟩
            · rw [lookup_dictSet_ne (by decide)]
              exact hpm1
            · intro ev2 hev2 _
              have he2 := he
              rw [hem1] at he2
              rw [he2] at hev2
              injection hev2 with hev2
              subst hev2
              exact ⟨ed, rfl, lookup_dictSet_self he⟩
          | int q => cases h
          | rat q => cases h
          | str q => cases h
        · have hne' : pvNe99 ev = false := by simpa using hne
          rw [hne'] at h
          simp only [Bool.false_eq_true, if_false] at h
          injection h with h
          subst h
          refine ⟨d, rfl, hpm1, ?_⟩
          intro ev2 hev2 hne2
          rw [hem1] at he
          rw [he] at hev2
          injection hev2 with hev2
          subst hev2
          rw [hne2] at hne'
          cases hne'
    | int q => simp only [pvStrftimeYJ] at h; cases h
    | rat q => simp only [pvStrftimeYJ] at h; cases h
    | str q => simp only [pvStrftimeYJ] at h; cases h

theorem plantingEntryStep_dict_ok {n : Nat} {m : PDict} {p' : PlantingVal}
    {line : String}
    (h : plantingEntryStep n (.dict m) = .ok (p', line)) :
    ∃ m', processPlantingDict m = .ok m' ∧ p' = .dict m' := by
  simp only [plantingEntryStep] at h
  cases hm : processPlantingDict m with
  | error e => simp only [hm] at h; cases h
  | ok m2 =>
    simp only [hm] at h
    cases hl : plantingLine n m2 with
    | error e => simp only [hl] at h; cases h
    | ok l2 =>
      simp only [hl] at h
      injection h with h
      injection h with h1 h2
      exact ⟨m2, rfl, h1.symm⟩

theorem plantingEntryStep_date_ok {n : Nat} {d : PDate} {p' : PlantingVal}
    {line : String}
    (h : plantingEntryStep n (.date d) = .ok (p', line)) :
    p' = .date d := by
  simp only [plantingEntryStep] at h
  cases hm : processPlantingDict [("PDATE", .date d)] with
  | error e => simp only [hm] at h; cases h
  | ok m2 =>
    simp only [hm] at h
    cases hl : plantingLine n m2 with
    | error e => simp only [hl] at h; cases h
    | ok l2 =>
      simp only [hl] at h
      injection h with h
      injection h with h1 h2
      exact h1.symm

theorem plantingEntryStep_dict_str_error (n : Nat) {m : PDict} {s : String}
    (hp : List.lookup "PDATE" m = some (.str s)) :
    plantingEntryStep n (.dict m) = .error .attrError := by
  simp only [plantingEntryStep, processPlantingDict, hp, pvStrftimeYJ]

theorem plantingBuildGo_ok_pointwise {tbl : List PlantingVal} :
    ∀ {n : Nat} {tbl' : List PlantingVal} {out : String},
    plantingBuildGo n tbl = .ok (tbl', out) →
    tbl'.length = tbl.length ∧
    (∀ (i : Nat) (m : PDict), tbl[i]? = some (.dict m) →
      ∃ m', tbl'[i]? = some (.dict m') ∧ processPlantingDict m = .ok m') := by
  induction tbl with
  | nil =>
    intro n tbl' out h
    injection h with h
    injection h with h1 h2
    subst h1
    refine ⟨rfl, ?_⟩
    intro i m hm
    simp at hm
  | cons p ps ih =>
    intro n tbl' out h
    simp only [plantingBuildGo] at h
    cases hstep : plantingEntryStep n p with
    | error e => simp only [hstep] at h; cases h
    | ok r =>
      simp only [hstep] at h
      cases hrest : plantingBuildGo (n + 1) ps with
      | error e => simp only [hrest] at h; cases h
      | ok rest =>
        simp only [hrest] at h
        injection h with h
        injection h with h1 h2
        subst h1
        obtain ⟨hlen, hpt⟩ := ih hrest
        refine ⟨by simp [hlen], ?_⟩
        intro i m hm
        cases i with
        | zero =>
          simp only [List.getElem?_cons_zero, Option.some.injEq] at hm
          subst hm
          obtain ⟨m', hm', hp'⟩ := plantingEntryStep_dict_ok hstep
          exact ⟨m', by simp [hp'], hm'⟩
        | succ j =>
          simp only [List.getElem?_cons_succ] at hm
          obtain ⟨m', hm', hp'⟩ := hpt j m hm
          exact ⟨m', by simpa using hm', hp'⟩

theorem plantingBuildGo_error_of_bad_dict {tbl : List PlantingVal} :
    ∀ {n i : Nat} {m : PDict} {s : String},
      tbl[i]? = some (.dict m) → List.lookup "PDATE" m = some (.str s) →
      ∃ e, plantingBuildGo n tbl = .error e := by
  induction tbl with
  | nil =>
    intro n i m s hm _
    simp at hm
  | cons p ps ih =>
    intro n i m s hm hp
    cases i with
    | zero =>
      simp only [List.getElem?_cons_zero, Option.some.injEq] at hm
      subst hm
      refine ⟨.attrError, ?_⟩
      simp only [plantingBuildGo, plantingEntryStep_dict_str_error n hp]
    | succ j =>
      simp only [List.getElem?_cons_succ] at hm
      obtain ⟨e, he⟩ := ih (n := n + 1) hm hp
      cases hstep : plantingEntryStep n p with
      | error e2 => exact ⟨e2, by simp only [plantingBuildGo, hstep]⟩
      | ok r =>
        refine ⟨e, ?_⟩
        simp only [plantingBuildGo, hstep, he]

/-- **C10**: `_planting_build` mutates the stored planting dimension in
place for dict-shaped entries: on a successful build, every dict entry's
`PDATE` (a date before the build) has been replaced in the resulting table
by its two-digit-year + day-of-year string — and its `EDATE`, when present
and not `-99`, likewise — so the table no longer holds the original date
under `PDATE`, and serializing the resulting registry state again fails
whenever a dict-shaped entry exists. -/
theorem C10_planting_build_mutates_dict_entries :
    ∀ (tbl tbl' : List PlantingVal) (out : String),
      planting_build tbl = .ok (tbl', out) →
      (∀ (i : Nat) (m : PDict), tbl[i]? = some (.dict m) →
        ∃ d m', List.lookup "PDATE" m = some (.date d) ∧
          tbl'[i]? = some (.dict m') ∧
          List.lookup "PDATE" m' = some (.str (fmtYJ d)) ∧
          (∀ ev, List.lookup "EDATE" m = some ev → pvNe99 ev = true →
            ∃ ed, ev = .date ed ∧
              List.lookup "EDATE" m' = some (.str (fmtYJ ed)))) ∧
      ((∃ (i : Nat) (m : PDict), tbl[i]? = some (.dict m)) →
        ∃ e, planting_build tbl' = .error e) := by
  intro tbl tbl' out h
  unfold planting_build at h
  cases hgo : plantingBuildGo 1 tbl with
  | error e => simp only [hgo] at h; cases h
  | ok r =>
    obtain ⟨tbl0, body⟩ := r
    simp only [hgo] at h
    injection h with h
    injection h with h1 h2
    subst h1
    obtain ⟨hlen, hpt⟩ := plantingBuildGo_ok_pointwise hgo
    constructor
    · intro i m hm
      obtain ⟨m', hm', hproc⟩ := hpt i m hm
      obtain ⟨d, hd1, hd2, hd3⟩ := processPlantingDict_ok hproc
      exact ⟨d, m', hd1, hm', hd2, hd3⟩
    · rintro ⟨i, m, hm⟩
      obtain ⟨m', hm', hproc⟩ := hpt i m hm
      obtain ⟨d, hd1, hd2, hd3⟩ := processPlantingDict_ok hproc
      obtain ⟨e, he⟩ := plantingBuildGo_error_of_bad_dict (n := 1) hm' hd2
      refine ⟨e, ?_⟩
      unfold planting_build
      simp only [he]

set_option maxRecDepth 4000 in
/-- Witness for C10 at a concrete input. -/
theorem C10_witness :
    planting_build [.dict [("PDATE", PV.date ⟨2021, 5, 1⟩)]] =
      .ok ([.dict [("PDATE", PV.str "21121")]],
        "*PLANTING DETAILS\n@P PDATE EDATE  PPOP  PPOE  PLME  PLDS  PLRS  PLRD  PLDP  PLWT  PAGE  PENV  PLPH  SPRL                        PLNAME\n 1 21121   -99   4.0   4.0     S     R    90     0     4   -99   -99   -99   -99   -99                        -99\n\n") ∧
    (∃ d m', List.lookup "PDATE" [("PDATE", PV.date ⟨2021, 5, 1⟩)]
        = some (.date d) ∧
      ([PlantingVal.dict [("PDATE", PV.str "21121")]] : List PlantingVal)[(0 : Nat)]?
        = some (.dict m') ∧
      List.lookup "PDATE" m' = some (.str (fmtYJ d)) ∧
      (∀ ev, List.lookup "EDATE" [("PDATE", PV.date ⟨2021, 5, 1⟩)] = some ev →
        pvNe99 ev = true →
        ∃ ed, ev = .date ed ∧
          List.lookup "EDATE" m' = some (.str (fmtYJ ed)))) ∧
    (∃ e, planting_build [.dict [("PDATE", PV.str "21121")]] = .error e) := by
  have hrun : planting_build [.dict [("PDATE", PV.date ⟨2021, 5, 1⟩)]] =
      .ok ([.dict [("PDATE", PV.str "21121")]],
        "*PLANTING DETAILS\n@P PDATE EDATE  PPOP  PPOE  PLME  PLDS  PLRS  PLRD  PLDP  PLWT  PAGE  PENV  PLPH  SPRL                        PLNAME\n 1 21121   -99   4.0   4.0     S     R    90     0     4   -99   -99   -99   -99   -99                        -99\n\n") := by
    rfl
  have hc := C10_planting_build_mutates_dict_entries _ _ _ hrun
  refine ⟨hrun, ?_, ?_⟩
  · exact hc.1 0 [("PDATE", PV.date ⟨2021, 5, 1⟩)] rfl
  · exact hc.2 ⟨0, [("PDATE", PV.date ⟨2021, 5, 1⟩)], rfl⟩
